import Mathlib

/-!
Verification of the Agent-OS orchestration core.

The development shallowly embeds the state-managing code of the repository:

* `OrchestratorContext` (the provider of `responses`, `timeline` and
  `correctionLinks` state together with its `add*` / `update*` / `remove*` /
  `clear*` callbacks and the fan-out `sendPromptToMultipleModels`);
* the semantic-timeline search (`filteredEntries`);
* the credential validation dispatcher (`validateAPIKey`);
* the correction-link creation handler (`handleCreateLink` of the
  self-correction panel, composed with the context's `addCorrectionLink`).

React state is modelled by explicit state passing: each callback becomes a
pure function from the current `OrchState` to the next one.  The functional
`setX (prev => ...)` updates used throughout the source make this embedding
exact.  Non-deterministic generators (`nanoid()`, `Date.now()`) and the
external provider exchanges are passed in as oracle parameters.  All text is
modelled as `String` except where the source manipulates characters
(lower-casing, trimming, substring search), where `List Char` is used.
-/

/-- The `ModelProvider` union type of `apiValidation.ts`:
`'openai' | 'gemini' | 'deepseek' | 'qwen'`. -/
inductive ModelProvider
  | openai
  | gemini
  | deepseek
  | qwen
deriving DecidableEq

/-- The string a `ModelProvider` value is at runtime (the TS type is a union
of string literals; e.g. `Home.tsx` passes these strings straight into the
timeline entries that the search later lower-cases). -/
def providerStr : ModelProvider → String
  | .openai => "openai"
  | .gemini => "gemini"
  | .deepseek => "deepseek"
  | .qwen => "qwen"

/-- Status of a `CanvasResponse`: `'loading' | 'success' | 'error'`. -/
inductive RStatus
  | loading
  | success
  | error
deriving DecidableEq

/-- `CanvasResponse` of `OrchestratorContext` (the Response Registry node). -/
structure CanvasResponse where
  id : String
  provider : ModelProvider
  prompt : String
  response : String
  timestamp : Nat
  status : RStatus
deriving DecidableEq

/-- `TimelineEntry` of `OrchestratorContext` (the History Ledger entry). -/
structure TimelineEntry where
  id : String
  prompt : String
  providers : List ModelProvider
  timestamp : Nat
  tags : List String
  responses : List CanvasResponse
deriving DecidableEq

/-- `correctionType` of a `CorrectionLink`:
`'code-review' | 'fact-check' | 'optimization'`. -/
inductive CorrectionType
  | codeReview
  | factCheck
  | optimization
deriving DecidableEq

/-- Status of a `CorrectionLink`: `'pending' | 'completed' | 'error'`. -/
inductive LStatus
  | pending
  | completed
  | error
deriving DecidableEq

/-- `CorrectionLink` of `OrchestratorContext`.  The `sourceProvider` /
`targetProvider` fields are the denormalized provider *strings* that the
self-correction panel stores alongside the id references. -/
structure CorrectionLink where
  id : String
  sourceNodeId : String
  sourceProvider : String
  targetNodeId : String
  targetProvider : String
  correctionType : CorrectionType
  status : LStatus
  feedback : Option String
  timestamp : Nat
deriving DecidableEq

/-- The three state cells held by `OrchestratorProvider`
(`responses`, `timeline`, `correctionLinks`). -/
structure OrchState where
  responses : List CanvasResponse
  timeline : List TimelineEntry
  correctionLinks : List CorrectionLink
deriving DecidableEq

/-- `addResponse`: spreads the caller's record and then overrides `id` with a
fresh `nanoid()` and `timestamp` with `Date.now()` (modelled by the `fid` and
`now` oracle arguments), appending the new node to `responses`. -/
def addResponse (response : CanvasResponse) (fid : String) (now : Nat)
    (s : OrchState) : OrchState :=
  { s with responses := s.responses ++ [{ response with id := fid, timestamp := now }] }

/-- A `Partial<CanvasResponse>` update record: absent fields keep the old
value, present fields override it (object-spread semantics). -/
structure ResponseUpdate where
  id? : Option String := none
  provider? : Option ModelProvider := none
  prompt? : Option String := none
  response? : Option String := none
  timestamp? : Option Nat := none
  status? : Option RStatus := none
deriving DecidableEq

/-- Applying an update record to a node. -/
def applyUpd (u : ResponseUpdate) (r : CanvasResponse) : CanvasResponse :=
  { id := u.id?.getD r.id
    provider := u.provider?.getD r.provider
    prompt := u.prompt?.getD r.prompt
    response := u.response?.getD r.response
    timestamp := u.timestamp?.getD r.timestamp
    status := u.status?.getD r.status }

/-- `updateResponse(id, updates)`: maps over `responses`, replacing the nodes
whose id matches by a freshly built updated object, leaving others alone. -/
def updateResponse (id : String) (u : ResponseUpdate) (s : OrchState) : OrchState :=
  { s with responses := s.responses.map (fun r => if r.id == id then applyUpd u r else r) }

/-- `removeResponse(id)`: keeps exactly the nodes whose id differs.  Nothing
else in the callback touches `timeline` or `correctionLinks`. -/
def removeResponse (id : String) (s : OrchState) : OrchState :=
  { s with responses := s.responses.filter (fun r => r.id != id) }

/-- `clearResponses()`. -/
def clearResponses (s : OrchState) : OrchState :=
  { s with responses := [] }

/-- `addTimelineEntry`: fresh id and timestamp override the caller's record
and the new entry is prepended (`[newEntry, ...prev]`). -/
def addTimelineEntry (entry : TimelineEntry) (fid : String) (now : Nat)
    (s : OrchState) : OrchState :=
  { s with timeline := { entry with id := fid, timestamp := now } :: s.timeline }

/-- `removeTimelineEntry(id)`. -/
def removeTimelineEntry (id : String) (s : OrchState) : OrchState :=
  { s with timeline := s.timeline.filter (fun e => e.id != id) }

/-- `addCorrectionLink`: fresh id and timestamp override the caller's record
and the new link is appended. -/
def addCorrectionLink (link : CorrectionLink) (fid : String) (now : Nat)
    (s : OrchState) : OrchState :=
  { s with correctionLinks := s.correctionLinks ++ [{ link with id := fid, timestamp := now }] }

/-- `removeCorrectionLink(id)`. -/
def removeCorrectionLink (id : String) (s : OrchState) : OrchState :=
  { s with correctionLinks := s.correctionLinks.filter (fun l => l.id != id) }

/-- Outcome of one provider call inside the fan-out loop: either the awaited
call produces a success text, or it throws and the `catch` branch runs. -/
inductive CallOutcome
  | ok (text : String)
  | err
deriving DecidableEq

/-- The per-provider mock success text (`mockResponses` in
`sendPromptToMultipleModels`). -/
def mockResponse : ModelProvider → String
  | .openai => "This is a response from OpenAI. I can help you with various tasks including coding, analysis, and creative writing."
  | .gemini => "Response from Google Gemini. I can assist with information retrieval, analysis, and problem-solving tasks."
  | .deepseek => "DeepSeek response: I specialize in deep reasoning and complex problem analysis."
  | .qwen => "Qwen response: I can help with multilingual tasks and comprehensive analysis."

/-- The provider calls of the repository never fail: the mock promise always
resolves and delivers `mockResponses[provider]`. -/
def mockOutcome (p : ModelProvider) : CallOutcome :=
  CallOutcome.ok (mockResponse p)

/-- Response text written by an outcome: the success text, or the `catch`
branch's diagnostic template string. -/
def outcomeText (p : ModelProvider) : CallOutcome → String
  | .ok t => t
  | .err => "Error: Failed to get response from " ++ providerStr p

/-- Terminal status written by an outcome. -/
def outcomeStatus : CallOutcome → RStatus
  | .ok _ => RStatus.success
  | .err => RStatus.error

/-- The per-node function of the completion `setResponses` call: a node is
rewritten exactly when `r.provider === provider && r.status === 'loading'`
(note: the prompt is NOT inspected), otherwise returned unchanged. -/
def stepNode (p : ModelProvider) (o : CallOutcome) (r : CanvasResponse) : CanvasResponse :=
  if r.provider == p && r.status == RStatus.loading then
    { r with response := outcomeText p o, status := outcomeStatus o }
  else r

/-- One completion's `setResponses((prev) => prev.map(...))` update. -/
def applyOutcome (p : ModelProvider) (o : CallOutcome) (rs : List CanvasResponse) :
    List CanvasResponse :=
  rs.map (stepNode p o)

/-- The synchronous registration loop of `sendPromptToMultipleModels`:
`providers.forEach((provider) => addResponse({provider, prompt, response: "",
status: "loading"}))`.  The `fresh` oracle supplies the `nanoid()` /
`Date.now()` pair for the k-th `addResponse` call; the dummy id and timestamp
of the argument record model the `Omit<..., "id" | "timestamp">` input (they
are overridden by `addResponse` in any case). -/
def registerPhase (prompt : String) (fresh : Nat → String × Nat) :
    List ModelProvider → Nat → OrchState → OrchState
  | [], _, s => s
  | p :: rest, k, s =>
      registerPhase prompt fresh rest (k + 1)
        (addResponse
          { id := "", provider := p, prompt := prompt, response := "",
            timestamp := 0, status := RStatus.loading }
          (fresh k).1 (fresh k).2 s)

/-- The pure-list description of what the registration loop appends: one
pending node per requested provider, in request order. -/
def pendingNodes (prompt : String) (fresh : Nat → String × Nat) :
    List ModelProvider → Nat → List CanvasResponse
  | [], _ => []
  | p :: rest, k =>
      { id := (fresh k).1, provider := p, prompt := prompt, response := "",
        timestamp := (fresh k).2, status := RStatus.loading }
        :: pendingNodes prompt fresh rest (k + 1)

/-- The `for (const provider of providers) { try ... await ... } ` loop: the
providers are processed strictly one after the other, each iteration applying
its own `setResponses` update to the state left by the previous iteration.
A thrown call (`CallOutcome.err`) runs the `catch` branch of its own
iteration only; the loop then continues with the next provider. -/
def completionPhase (outcome : ModelProvider → CallOutcome) :
    List ModelProvider → OrchState → OrchState
  | [], s => s
  | p :: rest, s =>
      completionPhase outcome rest
        { s with responses := applyOutcome p (outcome p) s.responses }

/-- The list form of the completion loop, used for frame lemmas. -/
def runOutcomes (outcome : ModelProvider → CallOutcome) :
    List ModelProvider → List CanvasResponse → List CanvasResponse
  | [], rs => rs
  | p :: rest, rs => runOutcomes outcome rest (applyOutcome p (outcome p) rs)

/-- The snapshot filter of the final `addTimelineEntry` call:
`responses.filter((r) => providers.includes(r.provider) && r.prompt === prompt)`. -/
def batchSnapshot (prompt : String) (providers : List ModelProvider)
    (rs : List CanvasResponse) : List CanvasResponse :=
  rs.filter (fun r => providers.contains r.provider && r.prompt == prompt)

/-- `sendPromptToMultipleModels(prompt, providers)` as a state transformer.
Phases, in the source's order: (1) the synchronous `forEach` registration of
one loading node per provider; (2) the sequential await loop applying each
provider's outcome; (3) the final `addTimelineEntry` call.

The `responses` array filtered in phase (3) is the React state captured by
the `useCallback` closure when this invocation started, i.e. `s0.responses`:
the functional `setResponses` updates performed by phases (1) and (2) are not
visible through that closure within the same invocation. -/
def sendPromptToMultipleModels (prompt : String) (providers : List ModelProvider)
    (fresh : Nat → String × Nat) (entryId : String) (entryTime : Nat)
    (outcome : ModelProvider → CallOutcome) (s0 : OrchState) : OrchState :=
  let s2 := completionPhase outcome providers (registerPhase prompt fresh providers 0 s0)
  addTimelineEntry
    { id := "", prompt := prompt, providers := providers, timestamp := 0,
      tags := [], responses := batchSnapshot prompt providers s0.responses }
    entryId entryTime s2

/-- Boolean test that `needle` begins `hay` (character-wise, as JS substring
search compares code units). -/
def isPrefixB : List Char → List Char → Bool
  | [], _ => true
  | _ :: _, [] => false
  | n :: ns, h :: hs => n == h && isPrefixB ns hs

/-- Boolean substring test, the model of `String.prototype.includes`. -/
def includesB : List Char → List Char → Bool
  | [], needle => needle.isEmpty
  | c :: t, needle => isPrefixB needle (c :: t) || includesB t needle

/-- `s.toLowerCase()` viewed as a character list. -/
def lowerStr (s : String) : List Char :=
  s.toList.map Char.toLower

/-- The `matchesSearch` disjunction of `filteredEntries` in the semantic
timeline: empty query, or case-insensitive substring of the prompt, of some
tag, or of some provider string. -/
def matchesSearch (q : String) (e : TimelineEntry) : Bool :=
  (q == "")
    || includesB (lowerStr e.prompt) (lowerStr q)
    || e.tags.any (fun tag => includesB (lowerStr tag) (lowerStr q))
    || e.providers.any (fun p => includesB (lowerStr (providerStr p)) (lowerStr q))

/-- The `matchesTag` conjunct: no tag selected, or exact membership. -/
def matchesTagFilter (t : Option String) (e : TimelineEntry) : Bool :=
  match t with
  | none => true
  | some tag => e.tags.contains tag

/-- `filteredEntries`: the derived search view over the ledger. -/
def filteredEntries (entries : List TimelineEntry) (q : String) (t : Option String) :
    List TimelineEntry :=
  entries.filter (fun e => matchesSearch q e && matchesTagFilter t e)

/-- Modelled from the spec's words ("case-insensitive substring match"): the
lower-cased needle occurs contiguously inside the lower-cased haystack. -/
def ciSubstr (needle hay : String) : Prop :=
  ∃ pre post, lowerStr hay = pre ++ lowerStr needle ++ post

/-- Modelled from the spec's words (the search-match predicate of 4.5): an
entry matches when the query is empty or is a case-insensitive substring of
the prompt, of some tag, or of some provider's stringified identity, and the
tag filter is unset or the entry's tags contain the selected tag. -/
def specEntryMatches (q : String) (t : Option String) (e : TimelineEntry) : Prop :=
  (q = "" ∨ ciSubstr q e.prompt ∨ (∃ tag ∈ e.tags, ciSubstr q tag)
      ∨ (∃ p ∈ e.providers, ciSubstr q (providerStr p)))
    ∧ (t = none ∨ (∃ tag, t = some tag ∧ tag ∈ e.tags))

/-- `ValidationResult` of `apiValidation.ts`. -/
structure ValidationResult where
  success : Bool
  message : String
  provider : ModelProvider
  timestamp : Nat
deriving DecidableEq

/-- `apiKey.trim()`: strip whitespace from both ends. -/
def trimChars (s : List Char) : List Char :=
  ((s.dropWhile Char.isWhitespace).reverse.dropWhile Char.isWhitespace).reverse

/-- `validateOpenAIKey`: a single `fetch` round trip; the `!response.ok` and
`catch` classifications are folded into the external `exchange` oracle, which
returns the `ValidationResult` the function builds from the reply.  The
second component counts the external exchanges performed (one). -/
def validateOpenAIKey (exchange : ModelProvider → List Char → ValidationResult)
    (apiKey : List Char) : ValidationResult × Nat :=
  (exchange ModelProvider.openai apiKey, 1)

/-- `validateGeminiKey`: one exchange, as above. -/
def validateGeminiKey (exchange : ModelProvider → List Char → ValidationResult)
    (apiKey : List Char) : ValidationResult × Nat :=
  (exchange ModelProvider.gemini apiKey, 1)

/-- `validateDeepSeekKey`: one exchange, as above. -/
def validateDeepSeekKey (exchange : ModelProvider → List Char → ValidationResult)
    (apiKey : List Char) : ValidationResult × Nat :=
  (exchange ModelProvider.deepseek apiKey, 1)

/-- `validateQwenKey`: one exchange, as above. -/
def validateQwenKey (exchange : ModelProvider → List Char → ValidationResult)
    (apiKey : List Char) : ValidationResult × Nat :=
  (exchange ModelProvider.qwen apiKey, 1)

/-- The result built by the empty-credential guard of `validateAPIKey`. -/
def emptyKeyResult (p : ModelProvider) (now : Nat) : ValidationResult :=
  { success := false, message := "API key cannot be empty", provider := p, timestamp := now }

/-- `validateAPIKey(provider, apiKey)`: the guard
`!apiKey || apiKey.trim().length === 0` returns the empty-credential failure
before any exchange (count 0); otherwise the provider switch dispatches to
the per-provider validator, each performing exactly one exchange. -/
def validateAPIKey (provider : ModelProvider) (apiKey : List Char)
    (exchange : ModelProvider → List Char → ValidationResult) (now : Nat) :
    ValidationResult × Nat :=
  if apiKey.isEmpty || (trimChars apiKey).length == 0 then
    (emptyKeyResult provider now, 0)
  else
    match provider with
    | .openai => validateOpenAIKey exchange apiKey
    | .gemini => validateGeminiKey exchange apiKey
    | .deepseek => validateDeepSeekKey exchange apiKey
    | .qwen => validateQwenKey exchange apiKey

/-- The link record built by `handleCreateLink` for a validated (src, tgt)
pair: denormalized provider strings come from looking the ids up in
`availableNodes` (`sourceNode?.provider || ""`), the status is `'pending'`
(which `Home.tsx`'s `handleCreateCorrectionLink` re-asserts before calling
`addCorrectionLink`).  Dummy id and timestamp are overridden by
`addCorrectionLink`. -/
def mkPanelLink (src tgt : String) (ctype : CorrectionType)
    (availableNodes : List CanvasResponse) : CorrectionLink :=
  { id := ""
    sourceNodeId := src
    sourceProvider :=
      match availableNodes.find? (fun n => n.id == src) with
      | some n => providerStr n.provider
      | none => ""
    targetNodeId := tgt
    targetProvider :=
      match availableNodes.find? (fun n => n.id == tgt) with
      | some n => providerStr n.provider
      | none => ""
    correctionType := ctype
    status := LStatus.pending
    feedback := none
    timestamp := 0 }

/-- `handleCreateLink` of the self-correction panel, composed with the
orchestrator's `addCorrectionLink`.  Returns the next state and, on a
validation failure, the error message shown to the user (in the failure
cases the handler returns before `onCreateLink`, so the state is unchanged). -/
def handleCreateLink (selectedSource selectedTarget : Option String)
    (ctype : CorrectionType) (availableNodes : List CanvasResponse)
    (fid : String) (now : Nat) (s : OrchState) : OrchState × Option String :=
  match selectedSource, selectedTarget with
  | some src, some tgt =>
      if src = tgt then
        (s, some "Source and target must be different nodes")
      else
        (addCorrectionLink (mkPanelLink src tgt ctype availableNodes) fid now s, none)
  | _, _ => (s, some "Select both source and target nodes")

/-- Per-provider latency model for the await loop: iteration k suspends for
the latency of its provider, so the loop's clock advances sequentially.
`deliveryTimes latency ps t` lists, for each provider in order, the instant
its result is delivered when the loop starts at time `t`. -/
def deliveryTimes (latency : ModelProvider → Nat) :
    List ModelProvider → Nat → List (ModelProvider × Nat)
  | [], _ => []
  | p :: rest, t => (p, t + latency p) :: deliveryTimes latency rest (t + latency p)

/-- Modelled from the spec's words ("calls execute concurrently", "a slow
provider must not block or delay delivery of a fast provider's result"):
under concurrent execution every provider's result is delivered after its own
latency only. -/
def concurrentDelivery (latency : ModelProvider → Nat) (ps : List ModelProvider) :
    List (ModelProvider × Nat) :=
  ps.map (fun p => (p, latency p))

/-- Modelled from the spec's words (4.3): a call's outcome may change only
the node matching the call's provider, the pending status AND the batch's
prompt; every other node of the registry is left untouched. -/
def updatesOnlyPromptMatching (batchPrompt : String) (p : ModelProvider)
    (o : CallOutcome) (rs : List CanvasResponse) : Prop :=
  ∀ pr ∈ (applyOutcome p o rs).zip rs,
    pr.1 ≠ pr.2 →
      pr.2.provider = p ∧ pr.2.status = RStatus.loading ∧ pr.2.prompt = batchPrompt

/-- A leftover pending node of an earlier batch: same provider as the new
batch, different prompt. -/
def staleNode : CanvasResponse :=
  { id := "n1", provider := ModelProvider.openai, prompt := "other", response := "",
    timestamp := 0, status := RStatus.loading }

/-- A completed node, used as a second concrete registry entry. -/
def doneNode : CanvasResponse :=
  { id := "n2", provider := ModelProvider.gemini, prompt := "ping", response := "done",
    timestamp := 1, status := RStatus.success }

/-- A concrete correction link whose source endpoint is `staleNode`. -/
def xLink : CorrectionLink :=
  { id := "l1", sourceNodeId := "n1", sourceProvider := "openai", targetNodeId := "n2",
    targetProvider := "gemini", correctionType := CorrectionType.codeReview,
    status := LStatus.pending, feedback := none, timestamp := 2 }

/-- A concrete state holding two nodes and one link touching node `n1`. -/
def c2State : OrchState :=
  { responses := [staleNode, doneNode], timeline := [], correctionLinks := [xLink] }

/-- A concrete ledger entry. -/
def c8Entry : TimelineEntry :=
  { id := "t1", prompt := "ping", providers := [ModelProvider.openai], timestamp := 5,
    tags := [], responses := [doneNode] }

/-- A concrete state holding one ledger entry. -/
def c8State : OrchState :=
  { responses := [doneNode], timeline := [c8Entry], correctionLinks := [] }

/-- C10: every add operation stamps the new entity with the freshly generated
id and the insertion-time timestamp, discarding whatever id or timestamp the
caller's record carried (object spread followed by explicit `id:`/`timestamp:`
fields), appends it to its own collection (prepends, for the ledger), and
leaves the other two collections and every pre-existing entry untouched. -/
theorem C10_add_assigns_fresh (resp : CanvasResponse) (entry : TimelineEntry)
    (link : CorrectionLink) (fid : String) (ft : Nat) (s : OrchState) :
    (addResponse resp fid ft s).responses
      = s.responses ++ [{ resp with id := fid, timestamp := ft }]
    ∧ (addTimelineEntry entry fid ft s).timeline
      = { entry with id := fid, timestamp := ft } :: s.timeline
    ∧ (addCorrectionLink link fid ft s).correctionLinks
      = s.correctionLinks ++ [{ link with id := fid, timestamp := ft }]
    ∧ (addResponse resp fid ft s).timeline = s.timeline
    ∧ (addResponse resp fid ft s).correctionLinks = s.correctionLinks
    ∧ (addTimelineEntry entry fid ft s).responses = s.responses
    ∧ (addTimelineEntry entry fid ft s).correctionLinks = s.correctionLinks
    ∧ (addCorrectionLink link fid ft s).responses = s.responses
    ∧ (addCorrectionLink link fid ft s).timeline = s.timeline
    ∧ (∀ r ∈ s.responses, r ∈ (addResponse resp fid ft s).responses)
    ∧ (∀ e ∈ s.timeline, e ∈ (addTimelineEntry entry fid ft s).timeline)
    ∧ (∀ l ∈ s.correctionLinks, l ∈ (addCorrectionLink link fid ft s).correctionLinks) := by
  refine ⟨rfl, rfl, rfl, rfl, rfl, rfl, rfl, rfl, rfl, ?_, ?_, ?_⟩
  · intro r hr
    exact List.mem_append_left _ hr
  · intro e he
    exact List.mem_cons_of_mem _ he
  · intro l hl
    exact List.mem_append_left _ hl

/-- Witness for C10 at a concrete state: a pre-existing node survives the
add, as the theorem's frame conjunct states. -/
theorem C10_add_assigns_fresh_witness :
    doneNode ∈ (addResponse staleNode "f1" 9 c2State).responses :=
  (C10_add_assigns_fresh staleNode c8Entry xLink "f1" 9 c2State).2.2.2.2.2.2.2.2.2.1
    doneNode (by decide)

/-- C8: recorded history entries are frozen values: updating a node, removing
a node, and clearing the registry rewrite only the `responses` collection and
leave the ledger, hence every recorded `responsesSnapshot`, exactly as it
was.  (Value semantics is faithful to the source: the completion and update
callbacks build fresh node objects with object spread instead of mutating a
stored node in place, so a snapshot list never aliases a mutated object.) -/
theorem C8_history_frame (s : OrchState) (id nid : String) (u : ResponseUpdate) :
    (updateResponse id u s).timeline = s.timeline
    ∧ (removeResponse nid s).timeline = s.timeline
    ∧ (clearResponses s).timeline = s.timeline
    ∧ ∀ e ∈ s.timeline,
        e ∈ (updateResponse id u s).timeline
        ∧ e ∈ (removeResponse nid s).timeline
        ∧ e ∈ (clearResponses s).timeline :=
  ⟨rfl, rfl, rfl, fun _ he => ⟨he, he, he⟩⟩

/-- Witness for C8 at a concrete state: the recorded entry is still in the
ledger after the registry is cleared. -/
theorem C8_history_frame_witness :
    c8Entry ∈ (clearResponses c8State).timeline :=
  ((C8_history_frame c8State "n2" "n2" {}).2.2.2 c8Entry (by decide)).2.2

/-- C2 counterexample: deleting node `n1` leaves the link whose
`sourceNodeId` is `n1` in the Correction Graph — `removeResponse` touches
only the `responses` array and no caller performs a cascade. -/
theorem C2_counterexample :
    ¬ (∀ l ∈ (removeResponse "n1" c2State).correctionLinks,
        l.sourceNodeId ≠ "n1" ∧ l.targetNodeId ≠ "n1") := by
  decide

/-- C2 amended: deleting a ResponseNode removes exactly the registry nodes
carrying that id and leaves the Correction Graph and the ledger unchanged;
links referencing the deleted node survive (their denormalized provider
strings keep them displayable). -/
theorem C2_remove_no_cascade (nid : String) (s : OrchState) :
    (removeResponse nid s).correctionLinks = s.correctionLinks
    ∧ (removeResponse nid s).timeline = s.timeline
    ∧ (∀ r ∈ (removeResponse nid s).responses, r.id ≠ nid)
    ∧ (∀ r ∈ s.responses, r.id ≠ nid → r ∈ (removeResponse nid s).responses) := by
  refine ⟨rfl, rfl, ?_, ?_⟩
  · intro r hr
    have h := (List.mem_filter.mp hr).2
    simpa [bne_iff_ne] using h
  · intro r hr hne
    exact List.mem_filter.mpr ⟨hr, by simpa [bne_iff_ne] using hne⟩

/-- Witness for C2's amended theorem: a node with a different id survives the
deletion. -/
theorem C2_remove_no_cascade_witness :
    doneNode ∈ (removeResponse "n1" c2State).responses :=
  (C2_remove_no_cascade "n1" c2State).2.2.2 doneNode (by decide) (by decide)

/-- C6: creating a correction link with equal endpoints is rejected with the
panel's validation message and the state is returned unchanged; with
distinct endpoints the link is appended with status pending. -/
theorem C6_link_creation (a : String) (ctype : CorrectionType)
    (availableNodes : List CanvasResponse) (fid : String) (now : Nat) (s : OrchState) :
    handleCreateLink (some a) (some a) ctype availableNodes fid now s
      = (s, some "Source and target must be different nodes")
    ∧ ∀ src tgt : String, src ≠ tgt →
        handleCreateLink (some src) (some tgt) ctype availableNodes fid now s
          = ({ s with correctionLinks := s.correctionLinks
                ++ [{ mkPanelLink src tgt ctype availableNodes with
                        id := fid, timestamp := now }] }, none)
          ∧ (mkPanelLink src tgt ctype availableNodes).status = LStatus.pending := by
  constructor
  · simp [handleCreateLink]
  · intro src tgt hne
    exact ⟨by simp [handleCreateLink, hne, addCorrectionLink], rfl⟩

/-- Witness for C6 at concrete distinct node ids. -/
theorem C6_link_creation_witness :
    handleCreateLink (some "n1") (some "n2") CorrectionType.codeReview
      [staleNode, doneNode] "l9" 7 c2State
      = ({ c2State with correctionLinks := c2State.correctionLinks
            ++ [{ mkPanelLink "n1" "n2" CorrectionType.codeReview [staleNode, doneNode] with
                    id := "l9", timestamp := 7 }] }, none) :=
  ((C6_link_creation "z" CorrectionType.codeReview [staleNode, doneNode] "l9" 7 c2State).2
    "n1" "n2" (by decide)).1

/-- Zipping a mapped list with the original pairs each image with its
preimage. -/
theorem map_zip_self {α β : Type} (f : α → β) (rs : List α) :
    (rs.map f).zip rs = rs.map (fun r => (f r, r)) := by
  induction rs with
  | nil => rfl
  | cons r t ih => simp [ih]

/-- C1 counterexample: the completion matcher checks only
`(provider, loading)` and ignores the prompt, so the outcome of a call issued
for prompt "ping" rewrites a pending node of prompt "other" (same provider,
e.g. left by an earlier overlapping batch); the end-to-end fan-out run shows
the foreign node forced to `success`. -/
theorem C1_counterexample :
    ¬ updatesOnlyPromptMatching "ping" ModelProvider.openai (CallOutcome.ok "hi") [staleNode]
    ∧ (sendPromptToMultipleModels "ping" [ModelProvider.openai] (fun _ => ("f0", 10))
        "t0" 11 (fun _ => CallOutcome.ok "hi")
        { responses := [staleNode], timeline := [], correctionLinks := [] }).responses.head?
      = some { staleNode with response := "hi", status := RStatus.success } := by
  refine ⟨?_, rfl⟩
  simp only [updatesOnlyPromptMatching]
  decide

/-- C1 amended: a call's outcome rewrites exactly the registry nodes matching
(provider, loading status) — the prompt is not consulted, so every pending
node of that provider is rewritten, across batches — giving each the
outcome's text and terminal status; all other nodes (other provider, or
already terminal) are unchanged, and when no node matches the outcome is
silently discarded (the registry is returned unchanged). -/
theorem C1_amended (p : ModelProvider) (o : CallOutcome) (rs : List CanvasResponse) :
    (applyOutcome p o rs).length = rs.length
    ∧ (∀ pr ∈ (applyOutcome p o rs).zip rs,
        (pr.2.provider = p ∧ pr.2.status = RStatus.loading →
          pr.1 = { pr.2 with response := outcomeText p o, status := outcomeStatus o })
        ∧ (¬ (pr.2.provider = p ∧ pr.2.status = RStatus.loading) → pr.1 = pr.2))
    ∧ ((∀ r ∈ rs, ¬ (r.provider = p ∧ r.status = RStatus.loading)) →
        applyOutcome p o rs = rs) := by
  refine ⟨by simp [applyOutcome], ?_, ?_⟩
  · intro pr hpr
    rw [applyOutcome, map_zip_self] at hpr
    obtain ⟨r, hr, rfl⟩ := List.mem_map.mp hpr
    constructor
    · rintro ⟨h1, h2⟩
      simp only [stepNode]
      rw [if_pos (by rw [Bool.and_eq_true, beq_iff_eq, beq_iff_eq]; exact ⟨h1, h2⟩)]
    · intro hn
      simp only [stepNode]
      rw [if_neg]
      intro hc
      rw [Bool.and_eq_true, beq_iff_eq, beq_iff_eq] at hc
      exact hn hc
  · intro hall
    rw [applyOutcome]
    have hid : ∀ r ∈ rs, stepNode p o r = r := by
      intro r hr
      simp only [stepNode]
      rw [if_neg]
      intro hc
      rw [Bool.and_eq_true, beq_iff_eq, beq_iff_eq] at hc
      exact hall r hr hc
    calc rs.map (stepNode p o) = rs.map id := List.map_congr_left hid
      _ = rs := List.map_id rs

/-- Witness for C1's amended theorem: an outcome for a provider with no
pending node leaves the registry unchanged. -/
theorem C1_amended_witness :
    applyOutcome ModelProvider.gemini (CallOutcome.ok "x") [staleNode] = [staleNode] :=
  (C1_amended ModelProvider.gemini (CallOutcome.ok "x") [staleNode]).2.2 (by decide)

/-- The registration loop only appends to `responses`: its result is the old
registry followed by `pendingNodes`. -/
theorem registerPhase_responses (prompt : String) (fresh : Nat → String × Nat)
    (ps : List ModelProvider) :
    ∀ (k : Nat) (s : OrchState),
      (registerPhase prompt fresh ps k s).responses
        = s.responses ++ pendingNodes prompt fresh ps k := by
  induction ps with
  | nil => intro k s; simp [registerPhase, pendingNodes]
  | cons p rest ih =>
    intro k s
    rw [registerPhase, ih, pendingNodes]
    simp [addResponse]

/-- The registration loop leaves the ledger and the Correction Graph
untouched. -/
theorem registerPhase_frame (prompt : String) (fresh : Nat → String × Nat)
    (ps : List ModelProvider) :
    ∀ (k : Nat) (s : OrchState),
      (registerPhase prompt fresh ps k s).timeline = s.timeline
      ∧ (registerPhase prompt fresh ps k s).correctionLinks = s.correctionLinks := by
  induction ps with
  | nil => intro k s; exact ⟨rfl, rfl⟩
  | cons p rest ih =>
    intro k s
    exact ih (k + 1) _

/-- One pending node is built per requested provider, in request order. -/
theorem pendingNodes_providers (prompt : String) (fresh : Nat → String × Nat)
    (ps : List ModelProvider) :
    ∀ k : Nat, (pendingNodes prompt fresh ps k).map (fun r => r.provider) = ps := by
  induction ps with
  | nil => intro k; rfl
  | cons p rest ih => intro k; simp [pendingNodes, ih (k + 1)]

/-- Every registered node starts pending with the batch prompt and an empty
output. -/
theorem pendingNodes_fields (prompt : String) (fresh : Nat → String × Nat)
    (ps : List ModelProvider) :
    ∀ k : Nat, ∀ r ∈ pendingNodes prompt fresh ps k,
      r.status = RStatus.loading ∧ r.prompt = prompt ∧ r.response = "" := by
  induction ps with
  | nil => intro k r hr; cases hr
  | cons p rest ih =>
    intro k r hr
    rw [pendingNodes] at hr
    rcases List.mem_cons.mp hr with h | h
    · rw [h]
      exact ⟨rfl, rfl, rfl⟩
    · exact ih (k + 1) r h

/-- C3: the registration phase of `sendPromptToMultipleModels` synchronously
appends exactly one pending ResponseNode per requested provider — carrying
that provider, the batch prompt and an empty output — to the registry,
touching nothing else; the definition of `sendPromptToMultipleModels` applies
the completion phase only to the fully registered state, so all n pending
nodes are in the registry before any provider call resolves. -/
theorem C3_register_pending (prompt : String) (fresh : Nat → String × Nat)
    (providers : List ModelProvider) (k : Nat) (s : OrchState) :
    (registerPhase prompt fresh providers k s).responses
      = s.responses ++ pendingNodes prompt fresh providers k
    ∧ (registerPhase prompt fresh providers k s).timeline = s.timeline
    ∧ (registerPhase prompt fresh providers k s).correctionLinks = s.correctionLinks
    ∧ (pendingNodes prompt fresh providers k).length = providers.length
    ∧ (pendingNodes prompt fresh providers k).map (fun r => r.provider) = providers
    ∧ (∀ r ∈ pendingNodes prompt fresh providers k,
        r.status = RStatus.loading ∧ r.prompt = prompt ∧ r.response = "") := by
  refine ⟨registerPhase_responses prompt fresh providers k s,
    (registerPhase_frame prompt fresh providers k s).1,
    (registerPhase_frame prompt fresh providers k s).2, ?_,
    pendingNodes_providers prompt fresh providers k,
    pendingNodes_fields prompt fresh providers k⟩
  have h := congrArg List.length (pendingNodes_providers prompt fresh providers k)
  simpa using h

/-- Witness for C3 at a concrete batch: one pending node is appended for the
single requested provider and it is pending on the batch prompt. -/
theorem C3_register_pending_witness :
    (registerPhase "ping" (fun _ => ("f0", 10)) [ModelProvider.openai] 0 c2State).responses
      = c2State.responses ++ pendingNodes "ping" (fun _ => ("f0", 10)) [ModelProvider.openai] 0
    ∧ ({ id := "f0", provider := ModelProvider.openai, prompt := "ping", response := "",
          timestamp := 10, status := RStatus.loading } : CanvasResponse).status
        = RStatus.loading :=
  ⟨(C3_register_pending "ping" (fun _ => ("f0", 10)) [ModelProvider.openai] 0 c2State).1,
   ((C3_register_pending "ping" (fun _ => ("f0", 10)) [ModelProvider.openai] 0 c2State).2.2.2.2.2
      _ (by decide)).1⟩

/-- The state a fresh session starts from. -/
def emptyOrch : OrchState := { responses := [], timeline := [], correctionLinks := [] }

/-- A complete fan-out run from an empty registry: prompt "ping" to the
single provider openai, with the repository's own mock outcomes. -/
def c4Run : OrchState :=
  sendPromptToMultipleModels "ping" [ModelProvider.openai] (fun _ => ("r0", 100))
    "t1" 200 mockOutcome emptyOrch

/-- C4 (bug evaluation): the run records exactly one ledger entry, at the
front, with the requested provider set and prompt — but its
`responsesSnapshot` is empty, because the filter ran over the stale
closure-captured registry (the state from before the call), while the
registry at the time of recording contains the batch's succeeded node, as the
second conjunct shows. -/
theorem C4_snapshot_stale :
    c4Run.timeline.map (fun e => (e.prompt, e.providers, e.tags, e.responses))
      = [("ping", [ModelProvider.openai], ([] : List String), ([] : List CanvasResponse))]
    ∧ batchSnapshot "ping" [ModelProvider.openai] c4Run.responses
      = [{ id := "r0", provider := ModelProvider.openai, prompt := "ping",
            response := mockResponse ModelProvider.openai, timestamp := 100,
            status := RStatus.success }] :=
  ⟨rfl, rfl⟩

/-- `isPrefixB` decides the begins-with relation. -/
theorem isPrefixB_iff (n : List Char) :
    ∀ h : List Char, isPrefixB n h = true ↔ ∃ t, h = n ++ t := by
  induction n with
  | nil =>
    intro h
    simp [isPrefixB]
  | cons a as ih =>
    intro h
    cases h with
    | nil =>
      simp [isPrefixB]
    | cons b bs =>
      rw [isPrefixB]
      simp only [Bool.and_eq_true, beq_iff_eq, ih bs, List.cons_append, List.cons.injEq]
      constructor
      · rintro ⟨rfl, t, rfl⟩
        exact ⟨t, rfl, rfl⟩
      · rintro ⟨t, rfl, rfl⟩
        exact ⟨rfl, t, rfl⟩

/-- `includesB` decides the contiguous-substring relation (the model of the
JS `includes` call of the search). -/
theorem includesB_iff (needle : List Char) :
    ∀ hay : List Char, includesB hay needle = true ↔
      ∃ pre post, hay = pre ++ needle ++ post := by
  intro hay
  induction hay with
  | nil =>
    rw [includesB]
    simp only [List.isEmpty_iff]
    constructor
    · rintro rfl
      exact ⟨[], [], rfl⟩
    · rintro ⟨pre, post, h⟩
      rcases List.append_eq_nil.mp ((List.append_eq_nil.mp h.symm).1).symm.symm with ⟨h1, h2⟩
      exact h2
  | cons c t ih =>
    rw [includesB]
    simp only [Bool.or_eq_true, isPrefixB_iff, ih]
    constructor
    · rintro (⟨post, hpost⟩ | ⟨pre, post, hsub⟩)
      · exact ⟨[], post, by simpa using hpost⟩
      · exact ⟨c :: pre, post, by simp [hsub]⟩
    · rintro ⟨pre, post, hsub⟩
      cases pre with
      | nil =>
        left
        exact ⟨post, by simpa using hsub⟩
      | cons x xs =>
        right
        rw [List.cons_append, List.cons_append, List.cons.injEq] at hsub
        exact ⟨xs, post, hsub.2⟩

/-- The boolean search disjunction agrees with the spec's match predicate. -/
theorem matchesSearch_iff (q : String) (e : TimelineEntry) :
    matchesSearch q e = true ↔
      (q = "" ∨ ciSubstr q e.prompt ∨ (∃ tag ∈ e.tags, ciSubstr q tag)
        ∨ (∃ p ∈ e.providers, ciSubstr q (providerStr p))) := by
  simp only [matchesSearch, ciSubstr, Bool.or_eq_true, includesB_iff, List.any_eq_true,
    beq_iff_eq]
  rw [or_assoc, or_assoc]

/-- The boolean tag conjunct agrees with the spec's tag condition. -/
theorem matchesTagFilter_iff (t : Option String) (e : TimelineEntry) :
    matchesTagFilter t e = true ↔
      (t = none ∨ ∃ tag, t = some tag ∧ tag ∈ e.tags) := by
  cases t with
  | none => simp [matchesTagFilter]
  | some tag => simp [matchesTagFilter, List.contains, List.elem_iff]

/-- C5: the derived search view is a subsequence of the ledger in unchanged
order; an entry of the ledger appears in the view exactly when it satisfies
the spec's match predicate; and the empty query with no tag selected returns
the full ledger. -/
theorem C5_search_view (entries : List TimelineEntry) (q : String) (t : Option String) :
    List.Sublist (filteredEntries entries q t) entries
    ∧ (∀ e ∈ entries, (e ∈ filteredEntries entries q t ↔ specEntryMatches q t e))
    ∧ filteredEntries entries "" none = entries := by
  refine ⟨List.filter_sublist _, ?_, ?_⟩
  · intro e he
    rw [filteredEntries, List.mem_filter]
    simp only [Bool.and_eq_true, matchesSearch_iff, matchesTagFilter_iff, specEntryMatches]
    exact ⟨fun h => h.2, fun h => ⟨he, h⟩⟩
  · rw [filteredEntries, List.filter_eq_self]
    intro e he
    simp [matchesSearch, matchesTagFilter]

/-- Witness for C5 at a concrete one-entry ledger and the identity query. -/
theorem C5_search_view_witness :
    c8Entry ∈ filteredEntries [c8Entry] "" none :=
  ((C5_search_view [c8Entry] "" none).2.1 c8Entry (by decide)).mpr
    ⟨Or.inl rfl, Or.inl rfl⟩

/-- Trimming yields the empty list exactly for whitespace-only input. -/
theorem trimChars_eq_nil_iff (s : List Char) :
    trimChars s = [] ↔ ∀ c ∈ s, c.isWhitespace = true := by
  rw [trimChars, List.reverse_eq_nil_iff, List.dropWhile_eq_nil_iff]
  constructor
  · intro h c hc
    have hc' : c ∈ s.takeWhile Char.isWhitespace ++ s.dropWhile Char.isWhitespace := by
      rw [List.takeWhile_append_dropWhile]
      exact hc
    rcases List.mem_append.mp hc' with h1 | h2
    · exact List.mem_takeWhile_imp h1
    · exact h c (List.mem_reverse.mpr h2)
  · intro h c hc
    exact h c ((List.dropWhile_sublist _).mem (List.mem_reverse.mp hc))

/-- C7: an empty or whitespace-only secret is rejected with the
empty-credential failure before any external exchange (zero exchanges are
performed); with any other secret the dispatcher performs exactly one
external exchange and returns exactly its outcome — no internal retry. -/
theorem C7_validate (p : ModelProvider) (k : List Char)
    (exchange : ModelProvider → List Char → ValidationResult) (now : Nat) :
    ((∀ c ∈ k, c.isWhitespace = true) →
      validateAPIKey p k exchange now = (emptyKeyResult p now, 0))
    ∧ ((¬ ∀ c ∈ k, c.isWhitespace = true) →
      validateAPIKey p k exchange now = (exchange p k, 1)) := by
  constructor
  · intro hws
    rw [validateAPIKey.eq_def, if_pos]
    rw [Bool.or_eq_true]
    right
    rw [beq_iff_eq, List.length_eq_zero, trimChars_eq_nil_iff]
    exact hws
  · intro hws
    rw [validateAPIKey.eq_def, if_neg]
    · cases p <;> rfl
    · rw [Bool.or_eq_true]
      rintro (h1 | h2)
      · refine hws ?_
        have : k = [] := by simpa [List.isEmpty_iff] using h1
        rw [this]
        intro c hc
        cases hc
      · refine hws ?_
        rw [beq_iff_eq, List.length_eq_zero, trimChars_eq_nil_iff] at h2
        exact h2

/-- A concrete exchange oracle for the C7 witness. -/
def trivialExchange : ModelProvider → List Char → ValidationResult :=
  fun p _ => { success := true, message := "", provider := p, timestamp := 0 }

/-- Witness for C7: a whitespace-only secret is rejected with zero exchanges
and a real secret triggers exactly one exchange. -/
theorem C7_validate_witness :
    validateAPIKey ModelProvider.openai " ".toList trivialExchange 3
      = (emptyKeyResult ModelProvider.openai 3, 0)
    ∧ validateAPIKey ModelProvider.openai "sk-test".toList trivialExchange 3
      = (trivialExchange ModelProvider.openai "sk-test".toList, 1) :=
  ⟨(C7_validate ModelProvider.openai " ".toList trivialExchange 3).1 (by decide),
   (C7_validate ModelProvider.openai "sk-test".toList trivialExchange 3).2 (by decide)⟩

/-- A latency assignment under which the first provider is slow. -/
def slowFirstLatency : ModelProvider → Nat
  | .openai => 5
  | _ => 1

/-- C9 counterexample: in the sequential await loop, gemini's result (its own
latency: 1) is delivered only at time 6, after openai's 5-unit call has
completed — refuting the claimed concurrent no-delay delivery. -/
theorem C9_counterexample :
    ¬ (deliveryTimes slowFirstLatency [ModelProvider.openai, ModelProvider.gemini] 0
        = concurrentDelivery slowFirstLatency [ModelProvider.openai, ModelProvider.gemini]) := by
  decide

/-- The sequential loop delivers the k-th provider's result at the start time
plus the sum of the latencies of all providers up to and including it. -/
theorem deliveryTimes_prefix_sum (latency : ModelProvider → Nat)
    (ps : List ModelProvider) :
    ∀ (t0 k : Nat), (deliveryTimes latency ps t0)[k]?
      = ps[k]?.map (fun p => (p, t0 + ((ps.take (k + 1)).map latency).sum)) := by
  induction ps with
  | nil => intro t0 k; simp [deliveryTimes]
  | cons p rest ih =>
    intro t0 k
    cases k with
    | zero => simp [deliveryTimes]
    | succ k =>
      rw [deliveryTimes]
      simp only [List.getElem?_cons_succ, ih, List.take_succ_cons, List.map_cons,
        List.sum_cons]
      cases rest[k]? <;> simp [Nat.add_assoc]

/-- `stepNode` never changes the provider of a node. -/
theorem stepNode_provider (p : ModelProvider) (o : CallOutcome) (r : CanvasResponse) :
    (stepNode p o r).provider = r.provider := by
  rw [stepNode]
  split <;> rfl

/-- The completion loop on the responses list alone. -/
theorem completionPhase_responses (outcome : ModelProvider → CallOutcome)
    (ps : List ModelProvider) :
    ∀ s : OrchState,
      (completionPhase outcome ps s).responses = runOutcomes outcome ps s.responses := by
  induction ps with
  | nil => intro s; rfl
  | cons p rest ih => intro s; exact ih _

/-- Sibling-independence of the completion loop: if two outcome assignments
agree everywhere except at provider q, the final registries agree at every
position whose node does not belong to q — changing (or failing) one
provider's call cannot affect any other provider's node. -/
theorem runOutcomes_frame (q : ModelProvider)
    (outcome outcome' : ModelProvider → CallOutcome)
    (hagree : ∀ p, p ≠ q → outcome p = outcome' p) :
    ∀ (ps : List ModelProvider) (rs rs' : List CanvasResponse) (k : Nat),
      rs[k]? = rs'[k]? →
      (∀ r, rs[k]? = some r → r.provider ≠ q) →
      (runOutcomes outcome ps rs)[k]? = (runOutcomes outcome' ps rs')[k]? := by
  intro ps
  induction ps with
  | nil =>
    intro rs rs' k h _
    simpa [runOutcomes] using h
  | cons p rest ih =>
    intro rs rs' k h hq
    rw [runOutcomes, runOutcomes]
    have hmap : (applyOutcome p (outcome p) rs)[k]?
        = (applyOutcome p (outcome' p) rs')[k]? := by
      rw [applyOutcome, applyOutcome, List.getElem?_map, List.getElem?_map, h]
      cases h' : rs'[k]? with
      | none => rfl
      | some r =>
        have hrq : r.provider ≠ q := hq r (h.trans h')
        by_cases hpq : p = q
        · subst hpq
          simp only [Option.map_some']
          rw [stepNode, stepNode, if_neg, if_neg] <;>
            · intro hc
              rw [Bool.and_eq_true, beq_iff_eq, beq_iff_eq] at hc
              exact hrq hc.1
        · rw [hagree p hpq]
    refine ih _ _ k hmap ?_
    intro r hr
    rw [applyOutcome, List.getElem?_map] at hr
    cases h0 : rs[k]? with
    | none => rw [h0] at hr; cases hr
    | some r0 =>
      rw [h0] at hr
      simp only [Option.map_some'] at hr
      have hr0 : r = stepNode p (outcome p) r0 := (Option.some_inj.mp hr).symm
      rw [hr0, stepNode_provider]
      exact hq r0 h0

/-- C9 amended: within one batch the provider calls run sequentially in
request order — the k-th provider's result is delivered only after the
latencies of all providers up to it have elapsed (prefix sums, first
conjunct) — while a change to one provider's outcome (e.g. a failure) still
never cancels or affects any sibling node of the batch (second conjunct). -/
theorem C9_sequential (latency : ModelProvider → Nat)
    (outcome outcome' : ModelProvider → CallOutcome) (q : ModelProvider)
    (ps : List ModelProvider) (s : OrchState) :
    (∀ t0 k, (deliveryTimes latency ps t0)[k]?
        = ps[k]?.map (fun p => (p, t0 + ((ps.take (k + 1)).map latency).sum)))
    ∧ ((∀ p, p ≠ q → outcome p = outcome' p) →
        ∀ k : Nat, (∀ r : CanvasResponse, s.responses[k]? = some r → r.provider ≠ q) →
          (completionPhase outcome ps s).responses[k]?
            = (completionPhase outcome' ps s).responses[k]?) := by
  constructor
  · intro t0 k
    exact deliveryTimes_prefix_sum latency ps t0 k
  · intro hagree k hk
    rw [completionPhase_responses, completionPhase_responses]
    exact runOutcomes_frame q outcome outcome' hagree ps s.responses s.responses k rfl hk

/-- An all-success outcome assignment. -/
def okOutcome : ModelProvider → CallOutcome := fun _ => CallOutcome.ok "hi"

/-- Same assignment except that openai's call throws. -/
def mixedOutcome : ModelProvider → CallOutcome
  | .openai => CallOutcome.err
  | p => okOutcome p

/-- A one-node registry state whose node belongs to gemini. -/
def w9State : OrchState := { responses := [doneNode], timeline := [], correctionLinks := [] }

/-- Witness for C9's amended theorem: concrete prefix-sum delivery (gemini
delivered at 5 + 1 = 6) and concrete sibling-independence (failing openai's
call leaves the gemini node's slot identical). -/
theorem C9_sequential_witness :
    (deliveryTimes slowFirstLatency [ModelProvider.openai, ModelProvider.gemini] 0)[1]?
      = some (ModelProvider.gemini, 6)
    ∧ (completionPhase okOutcome [ModelProvider.openai, ModelProvider.gemini] w9State).responses[0]?
      = (completionPhase mixedOutcome [ModelProvider.openai, ModelProvider.gemini] w9State).responses[0]? := by
  constructor
  · rw [(C9_sequential slowFirstLatency okOutcome mixedOutcome ModelProvider.openai
      [ModelProvider.openai, ModelProvider.gemini] w9State).1 0 1]
    decide
  · refine (C9_sequential slowFirstLatency okOutcome mixedOutcome ModelProvider.openai
      [ModelProvider.openai, ModelProvider.gemini] w9State).2 ?_ 0 ?_
    · intro p hp
      cases p
      · exact absurd rfl hp
      · rfl
      · rfl
      · rfl
    · intro r hr
      have h0 : w9State.responses[0]? = some doneNode := rfl
      rw [h0] at hr
      rw [← Option.some_inj.mp hr]
      decide


